import Mathlib

/-!
# Orders admin page (`service/static/js/rest_api.js`)

A shallow embedding of the jQuery script that drives the orders form: the
three utility functions (`update_form_data`, `clear_form_data`,
`flash_message`), the six click handlers and their `done` / `fail`
continuations.

Modelling conventions.

* The page is the record `UI`: the six form inputs, the markup held by
  `#flash_message` and the markup held by `#search_results`.  An input is a
  text holder: `.val(x)` stores `x` and `.val()` reads it back.
* `.empty()` sets the held markup to the empty string and `.append(m)`
  concatenates `m` to it.
* Values that JavaScript converts to text before use (numbers in a JSON
  record) are taken in their converted form, so record fields are strings.
* A click handler returns the page as it is when `$.ajax` is called together
  with the request it sends; each continuation is a function of the response
  and the page at the time the response arrives.
* A continuation may be cut short by an exception; `Outcome` keeps the page as
  it is at that point and how the continuation ended.
* `JSON.stringify(data)` is the serialisation boundary: the request body is
  modelled by the object that is serialised, a list of key/value members.
* The `Date` of the browser is not part of the script.  Every function that
  builds a `Date` from a string takes the reading of strings as its parameter
  `parse`: the time value of `new Date(s)`, or `none` for an invalid date.
  What the ECMAScript standard fixes about that reading is `isoTimeValue`.
-/

namespace Orders

/-! ## Page state -/

/-- The six inputs of the form. -/
structure Form where
  order_id : String
  customer_id : String
  status : String
  order_date : String
  discount_amount : String
  tracking_number : String
  deriving DecidableEq, Repr

/-- The page: form inputs, message area and results container. -/
structure UI where
  form : Form
  flash_message : String
  search_results : String
  deriving DecidableEq, Repr

/-- An order record as it arrives in a JSON response. -/
structure Order where
  order_id : String
  customer_id : String
  status : String
  order_date : String
  discount_amount : String
  tracking_number : String
  deriving DecidableEq, Repr

/-- Body of a failure response that carries JSON. -/
structure ErrorBody where
  message : String
  deriving DecidableEq, Repr

/-- The jqXHR object handed to a `fail` continuation: `responseJSON` is absent
when the response has no JSON body. -/
structure FailResponse where
  responseJSON : Option ErrorBody
  deriving DecidableEq, Repr

/-- How a continuation ended. -/
inductive Completion where
  | normal
  | rangeError
  | typeError
  deriving DecidableEq, Repr

/-- Page after a continuation, with the way the continuation ended. -/
structure Outcome where
  ui : UI
  completion : Completion
  deriving DecidableEq, Repr

/-- Body of a request: nothing (`data: ''`) or a serialised object. -/
inductive Body where
  | empty
  | json (members : List (String × String))
  deriving DecidableEq, Repr

/-- The settings object passed to `$.ajax`. -/
structure Request where
  type : String
  url : String
  contentType : String
  data : Body
  deriving DecidableEq, Repr

/-! ## Utility functions that do not involve dates -/

/-- Lines 20-26: clears the five inputs other than `#order_id`. -/
def clear_form_data (ui : UI) : UI :=
  { ui with form :=
      { ui.form with
        customer_id := ""
        status := ""
        order_date := ""
        discount_amount := ""
        tracking_number := "" } }

/-- The call `$("#flash_message").empty()`. -/
def flash_empty (ui : UI) : UI :=
  { ui with flash_message := "" }

/-- The call `$("#flash_message").append(message)`. -/
def flash_append (message : String) (ui : UI) : UI :=
  { ui with flash_message := ui.flash_message ++ message }

/-- Lines 29-32: empty the message area, then append the message. -/
def flash_message (message : String) (ui : UI) : UI :=
  flash_append message (flash_empty ui)

/-! ## The `Date` built-in

`update_form_data` evaluates `new Date(res.order_date).toISOString()`.

How a browser reads a string into a `Date` is only partly fixed by the
ECMAScript standard, so that reading is a parameter `parse` of the functions
below.  The part the standard fixes is `isoTimeValue`: the time value of a
string in the date-time string format `YYYY-MM-DDTHH:mm:ss.sssZ` with a
four-digit year, that is one of the date-only forms `YYYY`, `YYYY-MM`,
`YYYY-MM-DD`, optionally followed by `THH:mm`, `THH:mm:ss` or `THH:mm:ss.sss`
and then by `Z` or a signed `HH:mm` offset, with month 01-12, a day that
exists in its month, hour 00-24, minute and second 00-59.  A date-only form is
UTC; a date-time form without offset is local time.  `isoTimeValue` is `none`
on every other string: there the standard prescribes an invalid date (an
element out of range) or leaves the reading to the browser (other layouts,
six-digit years, fractions of other than three digits, a day past the end of
its month), and nothing is assumed about `parse`.

Printing is fixed by the standard in full: `toISOString` is a function of the
time value alone.

Closed examples need one reading to compute with.  They use `isoTimeValue`
itself, the reading of a browser that accepts the standard format and nothing
else, on strings that every browser reads in the same way.
-/

/-- Days from 1970-01-01 to the given proleptic Gregorian date. -/
def daysFromCivil (y m d : Int) : Int :=
  let y1 := if m ≤ 2 then y - 1 else y
  let era := y1 / 400
  let yoe := y1 - era * 400
  let mp := if 2 < m then m - 3 else m + 9
  let doy := (153 * mp + 2) / 5 + d - 1
  let doe := yoe * 365 + yoe / 4 - yoe / 100 + doy
  era * 146097 + doe - 719468

/-- Proleptic Gregorian date (year, month, day) of a day number. -/
def civilFromDays (z0 : Int) : Int × Int × Int :=
  let z := z0 + 719468
  let era := z / 146097
  let doe := z - era * 146097
  let yoe := (doe - doe / 1460 + doe / 36524 - doe / 146096) / 365
  let y := yoe + era * 400
  let doy := doe - (365 * yoe + yoe / 4 - yoe / 100)
  let mp := (5 * doy + 2) / 153
  let d := doy - (153 * mp + 2) / 5 + 1
  let m := if mp < 10 then mp + 3 else mp - 9
  (if m ≤ 2 then y + 1 else y, m, d)

/-- Gregorian leap-year rule. -/
def isLeapYear (y : Int) : Bool :=
  (y % 4 == 0 && y % 100 != 0) || y % 400 == 0

/-- Number of days of month `m` in year `y`. -/
def daysInMonth (y m : Int) : Int :=
  if m = 2 then (if isLeapYear y then 29 else 28)
  else if m = 4 ∨ m = 6 ∨ m = 9 ∨ m = 11 then 30
  else 31

/-- Milliseconds per day. -/
def msPerDay : Int := 86400000

/-- Value of a decimal digit character. -/
def digitVal (c : Char) : Option Nat :=
  if c.isDigit then some (c.toNat - 48) else none

/-- Reads two decimal digits. -/
def digits2 : List Char → Option (Nat × List Char)
  | a :: b :: rest =>
    match digitVal a, digitVal b with
    | some x, some y => some (10 * x + y, rest)
    | _, _ => none
  | _ => none

/-- Reads three decimal digits. -/
def digits3 : List Char → Option (Nat × List Char)
  | a :: b :: c :: rest =>
    match digitVal a, digitVal b, digitVal c with
    | some x, some y, some z => some (100 * x + 10 * y + z, rest)
    | _, _, _ => none
  | _ => none

/-- Reads four decimal digits. -/
def digits4 : List Char → Option (Nat × List Char)
  | a :: b :: c :: d :: rest =>
    match digitVal a, digitVal b, digitVal c, digitVal d with
    | some x, some y, some z, some w => some (1000 * x + 100 * y + 10 * z + w, rest)
    | _, _, _, _ => none
  | _ => none

/-- Consumes the character `c` when the input starts with it. -/
def eat (c : Char) : List Char → Option (List Char)
  | x :: rest => if x = c then some rest else none
  | [] => none

/-- Calendar fields of a date-time string. -/
structure DateFields where
  year : Nat
  month : Nat
  day : Nat
  deriving DecidableEq, Repr

/-- Clock fields of a date-time string. -/
structure TimeFields where
  hour : Nat
  minute : Nat
  second : Nat
  ms : Nat
  deriving DecidableEq, Repr

/-- Offset part of a date-time string. -/
inductive Zone where
  | localTime
  | offset (minutes : Int)
  deriving DecidableEq, Repr

/-- Date part: `YYYY`, `YYYY-MM` or `YYYY-MM-DD`. -/
def parseDatePart (s : List Char) : Option (DateFields × List Char) :=
  match digits4 s with
  | none => none
  | some (y, r0) =>
    match eat '-' r0 with
    | none => some (⟨y, 1, 1⟩, r0)
    | some r1 =>
      match digits2 r1 with
      | none => none
      | some (mo, r2) =>
        match eat '-' r2 with
        | none => some (⟨y, mo, 1⟩, r2)
        | some r3 =>
          match digits2 r3 with
          | none => none
          | some (d, r4) => some (⟨y, mo, d⟩, r4)

/-- Fraction of a second in the standard format: `.sss` with exactly three
digits, or nothing. -/
def parseFraction (s : List Char) : Option (Nat × List Char) :=
  match eat '.' s with
  | none => some (0, s)
  | some r => digits3 r

/-- Seconds with optional fraction: `:ss`, `:ss.sss`, or nothing. -/
def parseSeconds (s : List Char) : Option (Nat × Nat × List Char) :=
  match eat ':' s with
  | none => some (0, 0, s)
  | some r =>
    match digits2 r with
    | none => none
    | some (sec, r1) =>
      match parseFraction r1 with
      | none => none
      | some (ms, r2) => some (sec, ms, r2)

/-- Time part after the `T`: `HH:mm`, `HH:mm:ss` or `HH:mm:ss.sss`. -/
def parseTimePart (s : List Char) : Option (TimeFields × List Char) :=
  match digits2 s with
  | none => none
  | some (h, r0) =>
    match eat ':' r0 with
    | none => none
    | some r1 =>
      match digits2 r1 with
      | none => none
      | some (mi, r2) =>
        match parseSeconds r2 with
        | none => none
        | some (sec, ms, r3) => some (⟨h, mi, sec, ms⟩, r3)

/-- Signed offset digits `HH:mm` up to the end of the input, in minutes. -/
def parseOffset (s : List Char) : Option Nat :=
  match digits2 s with
  | none => none
  | some (h, r0) =>
    match eat ':' r0 with
    | none => none
    | some r1 =>
      match digits2 r1 with
      | some (mi, []) => if h ≤ 23 ∧ mi ≤ 59 then some (60 * h + mi) else none
      | _ => none

/-- Offset part up to the end of the input: nothing, `Z`, `+HH:mm` or `-HH:mm`. -/
def parseZone : List Char → Option Zone
  | [] => some Zone.localTime
  | c :: rest =>
    if c = 'Z' then (if rest = [] then some (Zone.offset 0) else none)
    else if c = '+' then (parseOffset rest).map (fun n => Zone.offset n)
    else if c = '-' then (parseOffset rest).map (fun n => Zone.offset (-(n : Int)))
    else none

/-- Range check on the calendar fields: a month of the year and a day of that
month. -/
def dateInRange (d : DateFields) : Bool :=
  decide (1 ≤ d.month ∧ d.month ≤ 12 ∧ 1 ≤ d.day ∧ (d.day : Int) ≤ daysInMonth d.year d.month)

/-- Range check on the clock fields; hour 24 is midnight at the end of the day. -/
def timeInRange (t : TimeFields) : Bool :=
  decide (t.minute ≤ 59 ∧ t.second ≤ 59 ∧
    (t.hour ≤ 23 ∨ (t.hour = 24 ∧ t.minute = 0 ∧ t.second = 0 ∧ t.ms = 0)))

/-- Milliseconds since the epoch of calendar and clock fields read as UTC. -/
def makeDate (d : DateFields) (t : TimeFields) : Int :=
  daysFromCivil d.year d.month d.day * msPerDay
    + (t.hour * 3600000 + t.minute * 60000 + t.second * 1000 + t.ms : Nat)

/-- The operation `TimeClip`: time values beyond 8.64e15 ms are invalid. -/
def timeClip (t : Int) : Option Int :=
  if -8640000000000000 ≤ t ∧ t ≤ 8640000000000000 then some t else none

/-- The time value the standard prescribes for `new Date(s)` when `s` is in
the date-time string format with every element in range; `none` when it
prescribes no time value for `s`.  `tza` gives the local offset from UTC, in
milliseconds, that applies at a local time value. -/
def isoTimeValue (tza : Int → Int) (s : String) : Option Int :=
  match parseDatePart s.data with
  | none => none
  | some (d, r) =>
    if dateInRange d then
      match r with
      | [] => timeClip (makeDate d ⟨0, 0, 0, 0⟩)
      | c :: r1 =>
        if c = 'T' then
          match parseTimePart r1 with
          | none => none
          | some (t, r2) =>
            if timeInRange t then
              match parseZone r2 with
              | none => none
              | some Zone.localTime => timeClip (makeDate d t - tza (makeDate d t))
              | some (Zone.offset m) => timeClip (makeDate d t - m * 60000)
            else none
        else none
    else none

/-- Character of the last decimal digit of a number. -/
def digitChar (n : Nat) : Char := Char.ofNat (48 + n % 10)

/-- Two-digit zero-padded decimal. -/
def pad2 (n : Nat) : List Char := [digitChar (n / 10), digitChar n]

/-- Three-digit zero-padded decimal. -/
def pad3 (n : Nat) : List Char := [digitChar (n / 100), digitChar (n / 10), digitChar n]

/-- Four-digit zero-padded decimal. -/
def pad4 (n : Nat) : List Char :=
  [digitChar (n / 1000), digitChar (n / 100), digitChar (n / 10), digitChar n]

/-- Six-digit zero-padded decimal. -/
def pad6 (n : Nat) : List Char :=
  [digitChar (n / 100000), digitChar (n / 10000), digitChar (n / 1000),
   digitChar (n / 100), digitChar (n / 10), digitChar n]

/-- Year as `toISOString` prints it: four digits from 0 to 9999, otherwise a
sign and six digits. -/
def isoYear (y : Int) : List Char :=
  if 0 ≤ y ∧ y ≤ 9999 then pad4 y.toNat
  else if 0 ≤ y then '+' :: pad6 y.toNat
  else '-' :: pad6 (-y).toNat

/-- The method `toISOString` on a valid time value:
`YYYY-MM-DDTHH:mm:ss.sssZ` in UTC. -/
def toISOString (t : Int) : String :=
  let day := t / msPerDay
  let tod := (t % msPerDay).toNat
  let ymd := civilFromDays day
  String.mk (isoYear ymd.1 ++ '-' :: pad2 ymd.2.1.toNat ++ '-' :: pad2 ymd.2.2.toNat
    ++ 'T' :: pad2 (tod / 3600000) ++ ':' :: pad2 (tod / 60000 % 60)
    ++ ':' :: pad2 (tod / 1000 % 60) ++ '.' :: pad3 (tod % 1000) ++ ['Z'])

/-- First element of `s.split("T")`: the text before the first `T`. -/
def splitT0 (s : String) : String :=
  String.mk (s.data.takeWhile (fun c => c != 'T'))

/-- The browser reads `s` as the standard prescribes, where it prescribes a
time value. -/
def ReadsAsStandard (tza : Int → Int) (parse : String → Option Int) (s : String) : Prop :=
  ∀ t, isoTimeValue tza s = some t → parse s = some t

/-- The expression `new Date(v).toISOString().split("T")[0]`, for the reading
`parse` of the browser; `none` when `toISOString` throws a `RangeError` on an
invalid date. -/
def formatted_date (parse : String → Option Int) (v : String) : Option String :=
  match parse v with
  | none => none
  | some t => some (splitT0 (toISOString t))

/-! ## `update_form_data` -/

/-- Lines 8-17: writes a record into the form.  The first three inputs are set
before the date is formatted, so they are written even when formatting
throws. -/
def update_form_data (parse : String → Option Int) (res : Order) (ui : UI) : Outcome :=
  let f1 : Form :=
    { ui.form with
      order_id := res.order_id
      customer_id := res.customer_id
      status := res.status }
  match formatted_date parse res.order_date with
  | none => ⟨{ ui with form := f1 }, Completion.rangeError⟩
  | some date =>
    ⟨{ ui with form :=
        { f1 with
          order_date := date
          discount_amount := res.discount_amount
          tracking_number := res.tracking_number } },
      Completion.normal⟩

/-! ## Click handlers and their continuations -/

/-- The object literal `data` built by the create and update handlers. -/
def form_payload (f : Form) : List (String × String) :=
  [("customer_id", f.customer_id),
   ("status", f.status),
   ("order_date", f.order_date),
   ("discount_amount", f.discount_amount),
   ("tracking_number", f.tracking_number)]

/-- Runs `flash_message` after a step, unless the step threw. -/
def then_flash (message : String) (o : Outcome) : Outcome :=
  match o.completion with
  | Completion.normal => ⟨flash_message message o.ui, Completion.normal⟩
  | _ => o

/-- The call `flash_message(res.responseJSON.message)`: reading `message` of
an absent `responseJSON` throws a `TypeError`. -/
def flash_response_message (res : FailResponse) (ui : UI) : Outcome :=
  match res.responseJSON with
  | none => ⟨ui, Completion.typeError⟩
  | some body => ⟨flash_message body.message ui, Completion.normal⟩

/-- Lines 38-61: the create handler up to the `$.ajax` call. -/
def create_click (ui : UI) : UI × List Request :=
  let data := form_payload ui.form
  let ui1 := flash_empty ui
  (ui1, [{ type := "POST", url := "/orders", contentType := "application/json",
           data := Body.json data }])

/-- Lines 63-66. -/
def create_done (parse : String → Option Int) (res : Order) (ui : UI) : Outcome :=
  then_flash "Success" (update_form_data parse res ui)

/-- Lines 68-70. -/
def create_fail (res : FailResponse) (ui : UI) : Outcome :=
  flash_response_message res ui

/-- Lines 78-102: the update handler up to the `$.ajax` call. -/
def update_click (ui : UI) : UI × List Request :=
  let order_id := ui.form.order_id
  let data := form_payload ui.form
  let ui1 := flash_empty ui
  (ui1, [{ type := "PUT", url := "/orders/" ++ order_id, contentType := "application/json",
           data := Body.json data }])

/-- Lines 104-107. -/
def update_done (parse : String → Option Int) (res : Order) (ui : UI) : Outcome :=
  then_flash "Success" (update_form_data parse res ui)

/-- Lines 109-111. -/
def update_fail (res : FailResponse) (ui : UI) : Outcome :=
  flash_response_message res ui

/-- Lines 119-130: the retrieve handler up to the `$.ajax` call. -/
def retrieve_click (ui : UI) : UI × List Request :=
  let order_id := ui.form.order_id
  let ui1 := flash_empty ui
  (ui1, [{ type := "GET", url := "/orders/" ++ order_id, contentType := "application/json",
           data := Body.empty }])

/-- Lines 132-136. -/
def retrieve_done (parse : String → Option Int) (res : Order) (ui : UI) : Outcome :=
  then_flash "Success" (update_form_data parse res ui)

/-- Lines 138-141. -/
def retrieve_fail (res : FailResponse) (ui : UI) : Outcome :=
  flash_response_message res (clear_form_data ui)

/-- Lines 149-160: the delete handler up to the `$.ajax` call. -/
def delete_click (ui : UI) : UI × List Request :=
  let order_id := ui.form.order_id
  let ui1 := flash_empty ui
  (ui1, [{ type := "DELETE", url := "/orders/" ++ order_id, contentType := "application/json",
           data := Body.empty }])

/-- Lines 162-165; the response body is not looked at. -/
def delete_done (_res : String) (ui : UI) : Outcome :=
  ⟨flash_message "Order has been Deleted!" (clear_form_data ui), Completion.normal⟩

/-- Lines 167-169; the response is not looked at. -/
def delete_fail (_res : FailResponse) (ui : UI) : Outcome :=
  ⟨flash_message "Server error!" ui, Completion.normal⟩

/-- Lines 176-180: the clear handler; it sends nothing. -/
def clear_click (ui : UI) : UI × List Request :=
  let ui1 := { ui with form := { ui.form with order_id := "" } }
  let ui2 := flash_empty ui1
  (clear_form_data ui2, [])

/-- Lines 194-226: the query string built from the five search inputs.  A
string is truthy exactly when it is not empty. -/
def search_query (f : Form) : String :=
  let q0 := ""
  let q1 := if f.customer_id ≠ "" then q0 ++ ("customer_id=" ++ f.customer_id) else q0
  let q2 :=
    if f.status ≠ "" then
      if q1.length > 0 then q1 ++ ("&status=" ++ f.status)
      else q1 ++ ("status=" ++ f.status)
    else q1
  let q3 :=
    if f.order_date ≠ "" then
      if q2.length > 0 then q2 ++ ("&order_date=" ++ f.order_date)
      else q2 ++ ("order_date=" ++ f.order_date)
    else q2
  let q4 :=
    if f.discount_amount ≠ "" then
      if q3.length > 0 then q3 ++ ("&discount_amount=" ++ f.discount_amount)
      else q3 ++ ("discount_amount=" ++ f.discount_amount)
    else q3
  let q5 :=
    if f.tracking_number ≠ "" then
      if q4.length > 0 then q4 ++ ("&tracking_number=" ++ f.tracking_number)
      else q4 ++ ("tracking_number=" ++ f.tracking_number)
    else q4
  q5

/-- Lines 186-235: the search handler up to the `$.ajax` call. -/
def search_click (ui : UI) : UI × List Request :=
  let queryString := search_query ui.form
  let ui1 := flash_empty ui
  (ui1, [{ type := "GET", url := "/orders?" ++ queryString, contentType := "application/json",
           data := Body.empty }])

/-- Lines 240-248: opening of the table up to `<tbody>`. -/
def table_head : String :=
  "<table class=\"table table-striped\" cellpadding=\"10\">"
    ++ "<thead><tr>"
    ++ "<th class=\"col-md-1\">Order ID</th>"
    ++ "<th class=\"col-md-1\">Customer ID</th>"
    ++ "<th class=\"col-md-2\">Order Date</th>"
    ++ "<th class=\"col-md-2\">Status</th>"
    ++ "<th class=\"col-md-3\">Tracking Number</th>"
    ++ "<th class=\"col-md-2\">Discount Amount</th>"
    ++ "</tr></thead><tbody>"

/-- Line 252: the template literal for row `i`. -/
def table_row (i : Nat) (order : Order) : String :=
  "<tr id=\"row_" ++ toString i ++ "\"><td>" ++ order.order_id
    ++ "</td><td>" ++ order.customer_id
    ++ "</td><td>" ++ order.order_date
    ++ "</td><td>" ++ order.status
    ++ "</td><td>" ++ order.tracking_number
    ++ "</td><td>" ++ order.discount_amount ++ "</td></tr>"

/-- Lines 250-256: the loop over the records from index `i` on, carrying the
table text and `firstOrder` (`none` is the initial `""`). -/
def search_loop : List Order → Nat → String × Option Order → String × Option Order
  | [], _, acc => acc
  | order :: rest, i, (table, firstOrder) =>
    search_loop rest (i + 1)
      (table ++ table_row i order, if i = 0 then some order else firstOrder)

/-- Lines 237-266. -/
def search_done (parse : String → Option Int) (res : List Order) (ui : UI) : Outcome :=
  let ui1 := { ui with search_results := "" }
  let acc := search_loop res 0 (table_head, none)
  let table := acc.1 ++ "</tbody></table>"
  let ui2 := { ui1 with search_results := ui1.search_results ++ table }
  match acc.2 with
  | some firstOrder => then_flash "Success" (update_form_data parse firstOrder ui2)
  | none => ⟨flash_message "Success" ui2, Completion.normal⟩

/-- Lines 268-270. -/
def search_fail (res : FailResponse) (ui : UI) : Outcome :=
  flash_response_message res ui

/-! ## Descriptions taken from the specification

These definitions restate what the specification says the code produces; the
theorems below compare them with the functions above. -/

/-- The five search fields in canonical order, each with its key. -/
def search_fields (f : Form) : List (String × String) :=
  [("customer_id", f.customer_id),
   ("status", f.status),
   ("order_date", f.order_date),
   ("discount_amount", f.discount_amount),
   ("tracking_number", f.tracking_number)]

/-- Query string as the specification describes it: the `&`-join of
`key=value` over the fields whose value is not empty. -/
def joined_query (f : Form) : String :=
  String.intercalate "&"
    (((search_fields f).filter (fun p => p.2 ≠ "")).map (fun p => p.1 ++ "=" ++ p.2))

/-- A table cell. -/
def html_cell (text : String) : String :=
  "<td>" ++ text ++ "</td>"

/-- A table row with an id and its cells. -/
def html_row (id : String) (cells : List String) : String :=
  "<tr id=\"" ++ id ++ "\">" ++ String.join (cells.map html_cell) ++ "</tr>"

/-- A header cell with its width class and its title. -/
def html_header (h : String × String) : String :=
  "<th class=\"" ++ h.1 ++ "\">" ++ h.2 ++ "</th>"

/-- The six column titles, in order, with their width classes. -/
def column_headers : List (String × String) :=
  [("col-md-1", "Order ID"),
   ("col-md-1", "Customer ID"),
   ("col-md-2", "Order Date"),
   ("col-md-2", "Status"),
   ("col-md-3", "Tracking Number"),
   ("col-md-2", "Discount Amount")]

/-- The cells of a record, in column order. -/
def record_cells (o : Order) : List String :=
  [o.order_id, o.customer_id, o.order_date, o.status, o.tracking_number, o.discount_amount]

/-- One row per record, in the order received, row `i` with id `row_i`. -/
def rendered_rows (res : List Order) : List String :=
  res.enum.map (fun p => html_row ("row_" ++ toString p.1) (record_cells p.2))

/-- The table as the specification describes it. -/
def rendered_table (res : List Order) : String :=
  "<table class=\"table table-striped\" cellpadding=\"10\">"
    ++ "<thead><tr>" ++ String.join (column_headers.map html_header) ++ "</tr></thead>"
    ++ "<tbody>" ++ String.join (rendered_rows res) ++ "</tbody></table>"

/-- Clock part of a date-time string: hours and minutes, with seconds, or with
seconds and milliseconds. -/
inductive ClockText where
  | hm (h mi : Nat)
  | hms (h mi s : Nat)
  | hmsf (h mi s ms : Nat)
  deriving DecidableEq, Repr

/-- The characters of the clock part, from the `T` on. -/
def ClockText.text : ClockText → List Char
  | ClockText.hm h mi => 'T' :: pad2 h ++ ':' :: pad2 mi
  | ClockText.hms h mi s => 'T' :: pad2 h ++ ':' :: pad2 mi ++ ':' :: pad2 s
  | ClockText.hmsf h mi s ms => 'T' :: pad2 h ++ ':' :: pad2 mi ++ ':' :: pad2 s ++ '.' :: pad3 ms

/-- Hours 00-23, minutes and seconds 00-59, milliseconds 000-999. -/
def ClockText.inDay : ClockText → Prop
  | ClockText.hm h mi => h ≤ 23 ∧ mi ≤ 59
  | ClockText.hms h mi s => h ≤ 23 ∧ mi ≤ 59 ∧ s ≤ 59
  | ClockText.hmsf h mi s ms => h ≤ 23 ∧ mi ≤ 59 ∧ s ≤ 59 ∧ ms ≤ 999

/-- The clock fields a clock part denotes. -/
def ClockText.fields : ClockText → TimeFields
  | ClockText.hm h mi => ⟨h, mi, 0, 0⟩
  | ClockText.hms h mi s => ⟨h, mi, s, 0⟩
  | ClockText.hmsf h mi s ms => ⟨h, mi, s, ms⟩

/-- Offset part of a date-time string: `Z`, or hours and minutes east or west
of UTC. -/
inductive OffsetText where
  | utc
  | east (h mi : Nat)
  | west (h mi : Nat)
  deriving DecidableEq, Repr

/-- The characters of the offset part: `Z`, `+HH:mm` or `-HH:mm`. -/
def OffsetText.text : OffsetText → List Char
  | OffsetText.utc => ['Z']
  | OffsetText.east h mi => '+' :: pad2 h ++ ':' :: pad2 mi
  | OffsetText.west h mi => '-' :: pad2 h ++ ':' :: pad2 mi

/-- Offset hours 00-23 and minutes 00-59. -/
def OffsetText.inRange : OffsetText → Prop
  | OffsetText.utc => True
  | OffsetText.east h mi => h ≤ 23 ∧ mi ≤ 59
  | OffsetText.west h mi => h ≤ 23 ∧ mi ≤ 59

/-- Minutes east of UTC. -/
def OffsetText.minutes : OffsetText → Int
  | OffsetText.utc => 0
  | OffsetText.east h mi => ((60 * h + mi : Nat) : Int)
  | OffsetText.west h mi => -((60 * h + mi : Nat) : Int)

/-- The characters `YYYY-MM-DD` of a date. -/
def date_text (y m d : Nat) : List Char :=
  pad4 y ++ '-' :: pad2 m ++ '-' :: pad2 d

/-- The characters of a date-time: date, clock and offset. -/
def date_time_text (y m d : Nat) (c : ClockText) (o : OffsetText) : List Char :=
  date_text y m d ++ c.text ++ o.text

/-- The instant a date-time with offset denotes, in milliseconds since the
epoch. -/
def instant (y m d : Nat) (c : ClockText) (o : OffsetText) : Int :=
  makeDate ⟨y, m, d⟩ c.fields - o.minutes * 60000

/-- The UTC calendar date of a time value, as `toISOString` prints it. -/
def utc_date (t : Int) : String :=
  String.mk (isoYear (civilFromDays (t / msPerDay)).1
    ++ '-' :: pad2 (civilFromDays (t / msPerDay)).2.1.toNat
    ++ '-' :: pad2 (civilFromDays (t / msPerDay)).2.2.toNat)

/-! ## Auxiliary lemmas -/

theorem lit_split (a b c x : String) (h : a ++ b = c) : a ++ (b ++ x) = c ++ x := by
  rw [← String.append_assoc, h]

theorem search_query_eq_joined (f : Form) : search_query f = joined_query f := by
  have k1 := fun x => lit_split "customer_id" "=" "customer_id=" x rfl
  have k2 := fun x => lit_split "status" "=" "status=" x rfl
  have k3 := fun x => lit_split "order_date" "=" "order_date=" x rfl
  have k4 := fun x => lit_split "discount_amount" "=" "discount_amount=" x rfl
  have k5 := fun x => lit_split "tracking_number" "=" "tracking_number=" x rfl
  have a2 := fun x => lit_split "&" "status=" "&status=" x rfl
  have a3 := fun x => lit_split "&" "order_date=" "&order_date=" x rfl
  have a4 := fun x => lit_split "&" "discount_amount=" "&discount_amount=" x rfl
  have a5 := fun x => lit_split "&" "tracking_number=" "&tracking_number=" x rfl
  have l1 : "customer_id=".length = 12 := rfl
  have l2 : "status=".length = 7 := rfl
  have l3 : "order_date=".length = 11 := rfl
  have l4 : "discount_amount=".length = 16 := rfl
  by_cases h1 : f.customer_id = "" <;> by_cases h2 : f.status = "" <;>
  by_cases h3 : f.order_date = "" <;> by_cases h4 : f.discount_amount = "" <;>
  by_cases h5 : f.tracking_number = "" <;>
  simp [search_query, joined_query, search_fields, h1, h2, h3, h4, h5, String.intercalate,
    String.intercalate.go, String.append_assoc, k1, k2, k3, k4, k5, a2, a3, a4, a5, l1, l2, l3, l4]

/-- The query string is empty or starts with the first letter of a key. -/
theorem search_query_head (f : Form) :
    (search_query f).data.head? = none ∨ (search_query f).data.head? = some 'c'
      ∨ (search_query f).data.head? = some 's' ∨ (search_query f).data.head? = some 'o'
      ∨ (search_query f).data.head? = some 'd' ∨ (search_query f).data.head? = some 't' := by
  have d1 : "customer_id=".data = 'c' :: "ustomer_id=".data := rfl
  have d2 : "status=".data = 's' :: "tatus=".data := rfl
  have d3 : "order_date=".data = 'o' :: "rder_date=".data := rfl
  have d4 : "discount_amount=".data = 'd' :: "iscount_amount=".data := rfl
  have d5 : "tracking_number=".data = 't' :: "racking_number=".data := rfl
  have l1 : "customer_id=".length = 12 := rfl
  have l2 : "status=".length = 7 := rfl
  have l3 : "order_date=".length = 11 := rfl
  have l4 : "discount_amount=".length = 16 := rfl
  have e0 : "".data = [] := rfl
  by_cases h1 : f.customer_id = "" <;> by_cases h2 : f.status = "" <;>
  by_cases h3 : f.order_date = "" <;> by_cases h4 : f.discount_amount = "" <;>
  by_cases h5 : f.tracking_number = "" <;>
  simp [search_query, h1, h2, h3, h4, h5, String.data_append, d1, d2, d3, d4, d5,
    l1, l2, l3, l4, e0]


set_option maxRecDepth 20000 in
theorem table_head_eq :
    table_head = "<table class=\"table table-striped\" cellpadding=\"10\">"
      ++ "<thead><tr>" ++ String.join (column_headers.map html_header) ++ "</tr></thead>"
      ++ "<tbody>" := by
  rfl

theorem table_row_eq (i : Nat) (o : Order) :
    table_row i o = html_row ("row_" ++ toString i) (record_cells o) := by
  apply String.ext
  simp [table_row, html_row, record_cells, html_cell, String.data_append]

/-- The loop appends one row per record, numbered from `i`. -/
theorem search_loop_table (res : List Order) :
    ∀ (i : Nat) (table : String) (first : Option Order),
      (search_loop res i (table, first)).1
        = table ++ String.join ((res.enumFrom i).map (fun p => table_row p.1 p.2)) := by
  induction res with
  | nil =>
    intro i table first
    apply String.ext
    simp [search_loop, String.data_append]
  | cons o rest ih =>
    intro i table first
    rw [search_loop, ih]
    apply String.ext
    simp [String.data_append, List.enumFrom]

/-- Past index 0 the loop leaves `firstOrder` alone. -/
theorem search_loop_first_succ (res : List Order) :
    ∀ (i : Nat) (table : String) (first : Option Order),
      (search_loop res (i + 1) (table, first)).2 = first := by
  induction res with
  | nil => intro i table first; rfl
  | cons o rest ih =>
    intro i table first
    rw [search_loop, ih]
    simp

/-- From index 0 the loop records the first record, if there is one. -/
theorem search_loop_first (res : List Order) (table : String) :
    (search_loop res 0 (table, none)).2 = res.head? := by
  cases res with
  | nil => rfl
  | cons o rest =>
    rw [search_loop, search_loop_first_succ]
    simp

theorem search_table_eq (res : List Order) :
    (search_loop res 0 (table_head, none)).1 ++ "</tbody></table>" = rendered_table res := by
  rw [search_loop_table, table_head_eq]
  apply String.ext
  simp [rendered_table, rendered_rows, List.enum, table_row_eq, String.data_append]


theorem then_flash_form (m : String) (o : Outcome) : (then_flash m o).ui.form = o.ui.form := by
  unfold then_flash
  split <;> rfl

theorem then_flash_results (m : String) (o : Outcome) :
    (then_flash m o).ui.search_results = o.ui.search_results := by
  unfold then_flash
  split <;> rfl

theorem update_form_data_results (parse : String → Option Int) (r : Order) (ui : UI) :
    (update_form_data parse r ui).ui.search_results = ui.search_results := by
  unfold update_form_data
  split <;> rfl

theorem update_form_data_form (parse : String → Option Int) (r : Order) (ui ui2 : UI)
    (h : ui2.form = ui.form) :
    (update_form_data parse r ui2).ui.form = (update_form_data parse r ui).ui.form := by
  unfold update_form_data
  cases formatted_date parse r.order_date <;> simp [h]

theorem update_form_data_valid (parse : String → Option Int) (r : Order) (ui : UI) (d : String)
    (h : formatted_date parse r.order_date = some d) :
    update_form_data parse r ui =
      ⟨{ ui with form := ⟨r.order_id, r.customer_id, r.status, d, r.discount_amount,
          r.tracking_number⟩ }, Completion.normal⟩ := by
  simp [update_form_data, h]

/-! ## The calendar -/

/-- The day number of 1 January is the `DayFromYear` of ECMAScript. -/
theorem daysFromCivil_year_start (y : Int) :
    daysFromCivil y 1 1
      = 365 * (y - 1970) + (y - 1969) / 4 - (y - 1901) / 100 + (y - 1601) / 400 := by
  simp only [daysFromCivil]
  simp
  omega

/-- Year of the era from the day of the era, for the four centuries `c`, the
25 four-year groups `q` and the four years `s` of a group. -/
theorem year_of_era (c q s doy doe : Int) (hc0 : 0 ≤ c) (hc : c ≤ 3) (hq0 : 0 ≤ q) (hq : q ≤ 24)
    (hs0 : 0 ≤ s) (hs : s ≤ 3) (h2 : 0 ≤ doy)
    (h3 : doy ≤ 364 ∨ (doy = 365 ∧ s = 3 ∧ (q ≠ 24 ∨ c = 3)))
    (hdoe : doe = 36524 * c + 1461 * q + 365 * s + doy) :
    (doe - doe / 1460 + doe / 36524 - doe / 146096) / 365 = 100 * c + 4 * q + s := by
  have hf : (doe / 36524 = c ∧ doe / 146096 = 0) ∨ doe = 146096 := by omega
  have he : doe / 1460 = 25 * c + q ∨ doe / 1460 = 25 * c + q + 1 := by omega
  rcases hf with ⟨hf, hg⟩ | hf
  · rw [hf, hg]
    rcases he with he | he
    · rw [he]; omega
    · rw [he]; omega
  · subst hf; omega

/-- Same, in terms of the year of the era itself. -/
theorem year_of_era_eq (yoe doy : Int) (h0 : 0 ≤ yoe) (h1 : yoe < 400) (h2 : 0 ≤ doy)
    (h3 : doy ≤ 364 ∨ (doy = 365 ∧ (yoe + 1) % 4 = 0 ∧ ((yoe + 1) % 100 ≠ 0 ∨ yoe = 399))) :
    ((yoe * 365 + yoe / 4 - yoe / 100 + doy) - (yoe * 365 + yoe / 4 - yoe / 100 + doy) / 1460
      + (yoe * 365 + yoe / 4 - yoe / 100 + doy) / 36524
      - (yoe * 365 + yoe / 4 - yoe / 100 + doy) / 146096) / 365 = yoe := by
  have h := year_of_era (yoe / 100) (yoe % 100 / 4) (yoe % 4) doy
    (yoe * 365 + yoe / 4 - yoe / 100 + doy) (by omega) (by omega) (by omega) (by omega)
    (by omega) (by omega) h2 (by omega) (by omega)
  rw [h]
  omega

/-- Day of the year, counted from 1 March, of a day of a month. -/
theorem month_of_day_of_year (mp d : Int) (hd : 1 ≤ d)
    (hd2 : d ≤ (153 * (mp + 1) + 2) / 5 - (153 * mp + 2) / 5) :
    (5 * ((153 * mp + 2) / 5 + d - 1) + 2) / 153 = mp := by
  omega

/-- The date of a day number given by its era, year of the era, month counted
from March and day of the month. -/
theorem civilFromDays_parts (era yoe mp d : Int) (hy0 : 0 ≤ yoe) (hy1 : yoe < 400)
    (hm0 : 0 ≤ mp) (hm1 : mp ≤ 11) (hd1 : 1 ≤ d)
    (hd2 : d ≤ (153 * (mp + 1) + 2) / 5 - (153 * mp + 2) / 5)
    (hleap : (153 * mp + 2) / 5 + d - 1 ≤ 364
      ∨ ((153 * mp + 2) / 5 + d - 1 = 365 ∧ (yoe + 1) % 4 = 0
          ∧ ((yoe + 1) % 100 ≠ 0 ∨ yoe = 399))) :
    civilFromDays (era * 146097
        + (yoe * 365 + yoe / 4 - yoe / 100 + ((153 * mp + 2) / 5 + d - 1)) - 719468)
      = (if (if mp < 10 then mp + 3 else mp - 9) ≤ 2 then yoe + era * 400 + 1
          else yoe + era * 400,
         if mp < 10 then mp + 3 else mp - 9, d) := by
  have hyoe := year_of_era_eq yoe ((153 * mp + 2) / 5 + d - 1) hy0 hy1 (by omega) hleap
  have hmp := month_of_day_of_year mp d hd1 hd2
  generalize hdoy : (153 * mp + 2) / 5 + d - 1 = doy at hyoe hmp hleap ⊢
  generalize hdoe : yoe * 365 + yoe / 4 - yoe / 100 + doy = doe at hyoe ⊢
  have hb : 0 ≤ doe ∧ doe ≤ 146096 := by omega
  have hz : era * 146097 + doe - 719468 + 719468 = era * 146097 + doe := by omega
  have hera : (era * 146097 + doe) / 146097 = era := by omega
  have hdoe2 : era * 146097 + doe - era * 146097 = doe := by omega
  have hdoy2 : doe - (365 * yoe + yoe / 4 - yoe / 100) = doy := by omega
  simp only [civilFromDays, hz, hera, hdoe2, hyoe, hdoy2, hmp]
  have hd : doy - (153 * mp + 2) / 5 + 1 = d := by omega
  rw [hd]

/-- What `d ≤ daysInMonth y m` says, in arithmetic. -/
theorem daysInMonth_bound (y m d : Int) (hd2 : d ≤ daysInMonth y m) :
    d ≤ 31 ∧ (m = 4 ∨ m = 6 ∨ m = 9 ∨ m = 11 → d ≤ 30)
      ∧ (m = 2 → d ≤ 29 ∧ (d = 29 → y % 4 = 0 ∧ (y % 100 ≠ 0 ∨ y % 400 = 0))) := by
  unfold daysInMonth at hd2
  by_cases h2 : m = 2
  · simp only [h2, if_true] at hd2
    by_cases hl : isLeapYear y = true
    · rw [if_pos hl] at hd2
      simp only [isLeapYear, Bool.or_eq_true, Bool.and_eq_true, beq_iff_eq, bne_iff_ne] at hl
      refine ⟨by omega, by omega, fun _ => ⟨hd2, fun _ => ?_⟩⟩
      rcases hl with ⟨h4, h100⟩ | h400
      · exact ⟨h4, Or.inl h100⟩
      · exact ⟨by omega, Or.inr h400⟩
    · rw [if_neg hl] at hd2
      omega
  · simp only [h2, if_false] at hd2
    split at hd2 <;> omega

theorem civil_roundtrip (y m d : Int) (hm1 : 1 ≤ m) (hm2 : m ≤ 12) (hd1 : 1 ≤ d)
    (hd2 : d ≤ daysInMonth y m) :
    civilFromDays (daysFromCivil y m d) = (y, m, d) := by
  obtain ⟨hb1, hb2, hb3⟩ := daysInMonth_bound y m d hd2
  unfold daysFromCivil
  by_cases hle : m ≤ 2
  · have hlt : ¬ 2 < m := by omega
    simp only [if_pos hle, if_neg hlt]
    have hmc : m = 1 ∨ m = 2 := by omega
    have key := civilFromDays_parts ((y - 1) / 400) (y - 1 - (y - 1) / 400 * 400) (m + 9) d
      (by omega) (by omega) (by omega) (by omega) hd1
      (by rcases hmc with h | h <;> subst h <;> omega)
      (by rcases hmc with h | h <;> subst h <;> omega)
    rw [key]
    have h10 : ¬ m + 9 < 10 := by omega
    have h2 : m + 9 - 9 ≤ 2 := by omega
    simp only [if_neg h10, if_pos h2]
    refine Prod.ext ?_ (Prod.ext ?_ rfl)
    · show y - 1 - (y - 1) / 400 * 400 + (y - 1) / 400 * 400 + 1 = y
      omega
    · show m + 9 - 9 = m
      omega
  · have hlt : 2 < m := by omega
    simp only [if_neg hle, if_pos hlt]
    have hmc : m = 3 ∨ m = 4 ∨ m = 5 ∨ m = 6 ∨ m = 7 ∨ m = 8 ∨ m = 9 ∨ m = 10 ∨ m = 11
        ∨ m = 12 := by omega
    have key := civilFromDays_parts (y / 400) (y - y / 400 * 400) (m - 3) d
      (by omega) (by omega) (by omega) (by omega) hd1
      (by rcases hmc with h | h | h | h | h | h | h | h | h | h <;> subst h <;> omega)
      (by rcases hmc with h | h | h | h | h | h | h | h | h | h <;> subst h <;> omega)
    rw [key]
    have h10 : m - 3 < 10 := by omega
    have h2 : ¬ m - 3 + 3 ≤ 2 := by omega
    simp only [if_pos h10, if_neg h2]
    refine Prod.ext ?_ (Prod.ext ?_ rfl)
    · show y - y / 400 * 400 + y / 400 * 400 = y
      omega
    · show m - 3 + 3 = m
      omega

/-! ## Reading and printing digits -/

theorem digitVal_digitChar (k : Nat) : digitVal (digitChar k) = some (k % 10) := by
  have h : k % 10 < 10 := Nat.mod_lt k (by decide)
  unfold digitChar
  generalize k % 10 = j at h
  interval_cases j <;> rfl

theorem digitChar_ne_T (k : Nat) : (digitChar k != 'T') = true := by
  have h : k % 10 < 10 := Nat.mod_lt k (by decide)
  unfold digitChar
  generalize k % 10 = j at h
  interval_cases j <;> rfl

theorem digits2_pad2 (n : Nat) (r : List Char) (h : n < 100) :
    digits2 (pad2 n ++ r) = some (n, r) := by
  have e : 10 * (n / 10 % 10) + n % 10 = n := by omega
  simp [pad2, digits2, digitVal_digitChar, e]

theorem digits3_pad3 (n : Nat) (r : List Char) (h : n < 1000) :
    digits3 (pad3 n ++ r) = some (n, r) := by
  have e : 100 * (n / 100 % 10) + 10 * (n / 10 % 10) + n % 10 = n := by omega
  simp [pad3, digits3, digitVal_digitChar, e]

theorem digits4_pad4 (n : Nat) (r : List Char) (h : n < 10000) :
    digits4 (pad4 n ++ r) = some (n, r) := by
  have e : 1000 * (n / 1000 % 10) + 100 * (n / 100 % 10) + 10 * (n / 10 % 10) + n % 10 = n := by
    omega
  simp [pad4, digits4, digitVal_digitChar, e]

theorem parseDatePart_date_text (y m d : Nat) (r : List Char) (hy : y < 10000) (hm : m < 100)
    (hd : d < 100) :
    parseDatePart (date_text y m d ++ r) = some (⟨y, m, d⟩, r) := by
  unfold parseDatePart date_text
  simp only [List.append_assoc, List.cons_append, digits4_pad4 y _ hy, eat, if_true,
    digits2_pad2 m _ hm, digits2_pad2 d _ hd]

theorem parseTimePart_text (c : ClockText) (o : OffsetText) (hc : c.inDay) :
    parseTimePart (c.text.tail ++ o.text) = some (c.fields, o.text) := by
  cases c with
  | hm h mi =>
    obtain ⟨h1, h2⟩ := hc
    cases o <;>
      simp [ClockText.text, ClockText.fields, OffsetText.text, parseTimePart, parseSeconds,
        digits2_pad2 h _ (by omega), digits2_pad2 mi _ (by omega), eat]
  | hms h mi s =>
    obtain ⟨h1, h2, h3⟩ := hc
    cases o <;>
      simp [ClockText.text, ClockText.fields, OffsetText.text, parseTimePart, parseSeconds,
        parseFraction, digits2_pad2 h _ (by omega), digits2_pad2 mi _ (by omega),
        digits2_pad2 s _ (by omega), eat]
  | hmsf h mi s ms =>
    obtain ⟨h1, h2, h3, h4⟩ := hc
    cases o <;>
      simp [ClockText.text, ClockText.fields, OffsetText.text, parseTimePart, parseSeconds,
        parseFraction, digits2_pad2 h _ (by omega), digits2_pad2 mi _ (by omega),
        digits2_pad2 s _ (by omega), digits3_pad3 ms _ (by omega), eat]

theorem clock_text_cons (c : ClockText) : c.text = 'T' :: c.text.tail := by
  cases c <;> rfl

theorem parseZone_text (o : OffsetText) (ho : o.inRange) :
    parseZone o.text = some (Zone.offset o.minutes) := by
  cases o with
  | utc => simp [OffsetText.text, OffsetText.minutes, parseZone]
  | east h mi =>
    obtain ⟨h1, h2⟩ := ho
    have e := digits2_pad2 mi [] (by omega)
    rw [List.append_nil] at e
    simp [OffsetText.text, OffsetText.minutes, parseZone, parseOffset,
      digits2_pad2 h _ (by omega), e, eat, h1, h2]
  | west h mi =>
    obtain ⟨h1, h2⟩ := ho
    have e := digits2_pad2 mi [] (by omega)
    rw [List.append_nil] at e
    simp [OffsetText.text, OffsetText.minutes, parseZone, parseOffset,
      digits2_pad2 h _ (by omega), e, eat, h1, h2]

theorem fields_inDay (c : ClockText) (hc : c.inDay) :
    c.fields.hour ≤ 23 ∧ c.fields.minute ≤ 59 ∧ c.fields.second ≤ 59 ∧ c.fields.ms ≤ 999 := by
  cases c with
  | hm h mi => obtain ⟨h1, h2⟩ := hc; simp [ClockText.fields, h1, h2]
  | hms h mi s => obtain ⟨h1, h2, h3⟩ := hc; simp [ClockText.fields, h1, h2, h3]
  | hmsf h mi s ms => obtain ⟨h1, h2, h3, h4⟩ := hc; simp [ClockText.fields, h1, h2, h3, h4]

theorem isoTimeValue_date_text (tza : Int → Int) (y m d : Nat) (hy : y ≤ 9999)
    (hm1 : 1 ≤ m) (hm2 : m ≤ 12) (hd1 : 1 ≤ d) (hd2 : (d : Int) ≤ daysInMonth y m) :
    isoTimeValue tza (String.mk (date_text y m d))
      = timeClip (makeDate ⟨y, m, d⟩ ⟨0, 0, 0, 0⟩) := by
  obtain ⟨hb1, _, _⟩ := daysInMonth_bound y m d hd2
  have hr : dateInRange ⟨y, m, d⟩ = true := by simp [dateInRange, hm1, hm2, hd1, hd2]
  have hp := parseDatePart_date_text y m d [] (by omega) (by omega) (by omega)
  rw [List.append_nil] at hp
  unfold isoTimeValue
  simp only [hp, hr, if_true]

theorem isoTimeValue_date_time_text (tza : Int → Int) (y m d : Nat) (c : ClockText)
    (o : OffsetText) (hy : y ≤ 9999) (hm1 : 1 ≤ m) (hm2 : m ≤ 12) (hd1 : 1 ≤ d)
    (hd2 : (d : Int) ≤ daysInMonth y m) (hc : c.inDay) (ho : o.inRange) :
    isoTimeValue tza (String.mk (date_time_text y m d c o))
      = timeClip (instant y m d c o) := by
  obtain ⟨hb1, _, _⟩ := daysInMonth_bound y m d hd2
  obtain ⟨h1, h2, h3, h4⟩ := fields_inDay c hc
  have hr : dateInRange ⟨y, m, d⟩ = true := by simp [dateInRange, hm1, hm2, hd1, hd2]
  have ht : timeInRange c.fields = true := by simp [timeInRange, h1, h2, h3]
  have hp := parseDatePart_date_text y m d ('T' :: (c.text.tail ++ o.text)) (by omega)
    (by omega) (by omega)
  have htext : date_time_text y m d c o = date_text y m d ++ 'T' :: (c.text.tail ++ o.text) := by
    unfold date_time_text
    rw [List.append_assoc]
    conv => lhs; rw [clock_text_cons c]
    rfl
  unfold isoTimeValue
  simp only [htext, hp, hr, if_true, parseTimePart_text c o hc, ht, parseZone_text o ho, instant]

theorem daysFromCivil_bounds (y m d : Int) (hy0 : 0 ≤ y) (hy : y ≤ 9999) (hm1 : 1 ≤ m)
    (hm2 : m ≤ 12) (hd1 : 1 ≤ d) (hd2 : d ≤ 31) :
    -1000000 ≤ daysFromCivil y m d ∧ daysFromCivil y m d ≤ 3000000 := by
  unfold daysFromCivil
  simp only []
  split <;> split <;> omega

theorem makeDate_day (y m d : Nat) (t : TimeFields) (ht : t.hour ≤ 23) (hmi : t.minute ≤ 59)
    (hs : t.second ≤ 59) (hms : t.ms ≤ 999) :
    makeDate ⟨y, m, d⟩ t / msPerDay = daysFromCivil y m d := by
  unfold makeDate msPerDay
  simp only []
  push_cast
  omega

theorem takeWhile_before_T (l r : List Char) (h : ∀ c ∈ l, (c != 'T') = true) :
    (l ++ 'T' :: r).takeWhile (fun c => c != 'T') = l := by
  induction l with
  | nil => simp [List.takeWhile]
  | cons a l ih =>
    have ha := h a (List.mem_cons_self a l)
    rw [List.cons_append, List.takeWhile_cons, ha, ih (fun c hc => h c (List.mem_cons_of_mem a hc))]
    rfl

theorem isoYear_no_T (y : Int) : ∀ c ∈ isoYear y, (c != 'T') = true := by
  intro c hc
  unfold isoYear at hc
  split at hc
  · simp only [pad4, List.mem_cons, List.mem_singleton, List.not_mem_nil, or_false] at hc
    rcases hc with h | h | h | h <;> subst h <;> exact digitChar_ne_T _
  · split at hc <;>
    · simp only [pad6, List.mem_cons, List.mem_singleton, List.not_mem_nil, or_false] at hc
      rcases hc with h | h | h | h | h | h | h <;> subst h <;>
        first | exact digitChar_ne_T _ | rfl

theorem splitT0_toISOString (t : Int) : splitT0 (toISOString t) = utc_date t := by
  unfold splitT0 toISOString utc_date
  simp only []
  congr 1
  have key := takeWhile_before_T
    (isoYear (civilFromDays (t / msPerDay)).1
      ++ '-' :: pad2 (civilFromDays (t / msPerDay)).2.1.toNat
      ++ '-' :: pad2 (civilFromDays (t / msPerDay)).2.2.toNat)
    (pad2 ((t % msPerDay).toNat / 3600000) ++ ':' :: pad2 ((t % msPerDay).toNat / 60000 % 60)
      ++ ':' :: pad2 ((t % msPerDay).toNat / 1000 % 60)
      ++ '.' :: pad3 ((t % msPerDay).toNat % 1000) ++ ['Z'])
  simp only [List.append_assoc, List.cons_append] at key ⊢
  apply key
  intro c hc
  simp only [List.mem_append, List.mem_cons, pad2, List.mem_singleton, List.not_mem_nil,
    or_false, or_assoc] at hc
  rcases hc with hc | hc | hc | hc | hc | hc | hc
  · exact isoYear_no_T _ c hc
  all_goals first | (subst hc; exact digitChar_ne_T _) | (subst hc; rfl)

theorem offset_minutes_bound (o : OffsetText) (ho : o.inRange) :
    -1439 ≤ o.minutes ∧ o.minutes ≤ 1439 := by
  cases o with
  | utc => simp [OffsetText.minutes]
  | east h mi => obtain ⟨h1, h2⟩ := ho; simp only [OffsetText.minutes]; omega
  | west h mi => obtain ⟨h1, h2⟩ := ho; simp only [OffsetText.minutes]; omega

theorem timeClip_makeDate (y m d : Nat) (t : TimeFields) (off : Int) (hy : y ≤ 9999)
    (hm1 : 1 ≤ m) (hm2 : m ≤ 12) (hd1 : 1 ≤ d) (hd2 : d ≤ 31) (ht : t.hour ≤ 23)
    (hmi : t.minute ≤ 59) (hs : t.second ≤ 59) (hms : t.ms ≤ 999) (ho1 : -1439 ≤ off)
    (ho2 : off ≤ 1439) :
    timeClip (makeDate ⟨y, m, d⟩ t - off * 60000) = some (makeDate ⟨y, m, d⟩ t - off * 60000) := by
  have hb := daysFromCivil_bounds y m d (by omega) (by omega) (by omega) (by omega) (by omega)
    (by omega)
  unfold timeClip
  rw [if_pos]
  unfold makeDate msPerDay
  simp only []
  push_cast
  omega

theorem utc_date_makeDate (y m d : Nat) (t : TimeFields) (hy : y ≤ 9999) (hm1 : 1 ≤ m)
    (hm2 : m ≤ 12) (hd1 : 1 ≤ d) (hd2 : (d : Int) ≤ daysInMonth y m) (ht : t.hour ≤ 23)
    (hmi : t.minute ≤ 59) (hs : t.second ≤ 59) (hms : t.ms ≤ 999) :
    utc_date (makeDate ⟨y, m, d⟩ t) = String.mk (date_text y m d) := by
  unfold utc_date
  rw [makeDate_day y m d t ht hmi hs hms,
    civil_roundtrip y m d (by omega) (by omega) (by omega) hd2]
  have hy' : (0 : Int) ≤ (y : Int) ∧ (y : Int) ≤ 9999 := by omega
  simp only [isoYear, if_pos hy', Int.toNat_ofNat, date_text]

theorem formatted_date_of_value (parse : String → Option Int) (v : String) (t : Int)
    (h : parse v = some t) : formatted_date parse v = some (utc_date t) := by
  simp only [formatted_date, h, splitT0_toISOString]

/-- A date alone is shown as itself. -/
theorem formatted_date_date_text (tza : Int → Int) (parse : String → Option Int)
    (y m d : Nat) (hy : y ≤ 9999) (hm1 : 1 ≤ m) (hm2 : m ≤ 12) (hd1 : 1 ≤ d)
    (hd2 : (d : Int) ≤ daysInMonth y m)
    (hread : ReadsAsStandard tza parse (String.mk (date_text y m d))) :
    formatted_date parse (String.mk (date_text y m d)) = some (String.mk (date_text y m d)) := by
  obtain ⟨hb1, _, _⟩ := daysInMonth_bound y m d hd2
  have hv := isoTimeValue_date_text tza y m d hy hm1 hm2 hd1 hd2
  have hc := timeClip_makeDate y m d ⟨0, 0, 0, 0⟩ 0 hy hm1 hm2 hd1 (by omega) (by decide)
    (by decide) (by decide) (by decide) (by decide) (by decide)
  simp only [zero_mul, sub_zero] at hc
  rw [hc] at hv
  rw [formatted_date_of_value parse _ _ (hread _ hv),
    utc_date_makeDate y m d ⟨0, 0, 0, 0⟩ hy hm1 hm2 hd1 hd2 (by decide) (by decide) (by decide)
      (by decide)]

/-- A date-time with offset is shown as the UTC date of its instant. -/
theorem formatted_date_date_time_text (tza : Int → Int) (parse : String → Option Int)
    (y m d : Nat) (c : ClockText) (o : OffsetText) (hy : y ≤ 9999) (hm1 : 1 ≤ m) (hm2 : m ≤ 12)
    (hd1 : 1 ≤ d) (hd2 : (d : Int) ≤ daysInMonth y m) (hc : c.inDay) (ho : o.inRange)
    (hread : ReadsAsStandard tza parse (String.mk (date_time_text y m d c o))) :
    formatted_date parse (String.mk (date_time_text y m d c o))
      = some (utc_date (instant y m d c o)) := by
  obtain ⟨hb1, _, _⟩ := daysInMonth_bound y m d hd2
  obtain ⟨h1, h2, h3, h4⟩ := fields_inDay c hc
  obtain ⟨ho1, ho2⟩ := offset_minutes_bound o ho
  have hv := isoTimeValue_date_time_text tza y m d c o hy hm1 hm2 hd1 hd2 hc ho
  have hclip := timeClip_makeDate y m d c.fields o.minutes hy hm1 hm2 hd1 (by omega) h1 h2 h3 h4
    ho1 ho2
  rw [instant, hclip] at hv
  exact formatted_date_of_value parse _ _ (hread _ hv)

/-- With offset `Z` the instant falls on the date of the string. -/
theorem utc_date_instant_utc (y m d : Nat) (c : ClockText) (hy : y ≤ 9999) (hm1 : 1 ≤ m)
    (hm2 : m ≤ 12) (hd1 : 1 ≤ d) (hd2 : (d : Int) ≤ daysInMonth y m) (hc : c.inDay) :
    utc_date (instant y m d c OffsetText.utc) = String.mk (date_text y m d) := by
  obtain ⟨h1, h2, h3, h4⟩ := fields_inDay c hc
  simp only [instant, OffsetText.minutes, zero_mul, sub_zero]
  exact utc_date_makeDate y m d c.fields hy hm1 hm2 hd1 hd2 h1 h2 h3 h4

/-- In every browser that reads `2024-01-05T23:30:00-05:00` as the standard
prescribes, the date shown for it is `2024-01-06`. -/
theorem formatted_date_west_of_utc (tza : Int → Int) (parse : String → Option Int)
    (hread : ReadsAsStandard tza parse "2024-01-05T23:30:00-05:00") :
    formatted_date parse "2024-01-05T23:30:00-05:00" = some "2024-01-06" := by
  have h := formatted_date_date_time_text tza parse 2024 1 5 (ClockText.hms 23 30 0)
    (OffsetText.west 5 0) (by decide) (by decide) (by decide) (by decide) (by decide)
    ⟨by decide, by decide, by decide⟩ ⟨by decide, by decide⟩ hread
  have e : utc_date (instant 2024 1 5 (ClockText.hms 23 30 0) (OffsetText.west 5 0))
      = "2024-01-06" := by decide
  rw [e] at h
  exact h

/-! ## Claims about the query string, the requests and the handlers -/

/-- C1: the query string built by the search handler is the `&`-join of
`key=value` over exactly the non-empty fields, in the order customer_id,
status, order_date, discount_amount, tracking_number, with the values
unescaped; it does not start with `?` or `&`; it is empty when the five fields
are empty; with customer_id `C1` alone it is `customer_id=C1`; and it is what
the handler puts after `/orders?` in the request. -/
theorem search_query_is_joined_pairs (ui : UI) (order_id : String) :
    search_query ui.form = joined_query ui.form
    ∧ (search_query ui.form).data.head? ≠ some '?'
    ∧ (search_query ui.form).data.head? ≠ some '&'
    ∧ search_query ⟨order_id, "", "", "", "", ""⟩ = ""
    ∧ search_query ⟨order_id, "C1", "", "", "", ""⟩ = "customer_id=C1"
    ∧ (search_click ui).2.map (fun r => r.url) = ["/orders?" ++ joined_query ui.form] := by
  refine ⟨search_query_eq_joined _, ?_, ?_, rfl, rfl, ?_⟩
  · rcases search_query_head ui.form with h | h | h | h | h | h <;> rw [h] <;> decide
  · rcases search_query_head ui.form with h | h | h | h | h | h <;> rw [h] <;> decide
  · simp [search_click, search_query_eq_joined]

/-- C3: the create and update requests carry as body exactly the five members
customer_id, status, order_date, discount_amount, tracking_number, each with
the form input as it stands, and no member order_id; update, retrieve and
delete put the form order_id in the path `/orders/order_id`, and retrieve and
delete send no body. -/
theorem request_payloads (ui : UI) :
    (create_click ui).2 =
      [⟨"POST", "/orders", "application/json",
        Body.json [("customer_id", ui.form.customer_id), ("status", ui.form.status),
          ("order_date", ui.form.order_date), ("discount_amount", ui.form.discount_amount),
          ("tracking_number", ui.form.tracking_number)]⟩]
    ∧ (update_click ui).2 =
      [⟨"PUT", "/orders/" ++ ui.form.order_id, "application/json",
        Body.json [("customer_id", ui.form.customer_id), ("status", ui.form.status),
          ("order_date", ui.form.order_date), ("discount_amount", ui.form.discount_amount),
          ("tracking_number", ui.form.tracking_number)]⟩]
    ∧ (retrieve_click ui).2 =
      [⟨"GET", "/orders/" ++ ui.form.order_id, "application/json", Body.empty⟩]
    ∧ (delete_click ui).2 =
      [⟨"DELETE", "/orders/" ++ ui.form.order_id, "application/json", Body.empty⟩]
    ∧ (form_payload ui.form).map Prod.fst =
      ["customer_id", "status", "order_date", "discount_amount", "tracking_number"]
    ∧ "order_id" ∉ (form_payload ui.form).map Prod.fst := by
  refine ⟨rfl, rfl, rfl, rfl, rfl, ?_⟩
  simp [form_payload]

/-- C4: whatever the failure response, the failure handler of retrieve empties
customer_id, status, order_date, discount_amount and tracking_number and keeps
order_id, and the failure handlers of create, update, delete and search leave
the six inputs as they were. -/
theorem failure_handlers_on_form (res : FailResponse) (ui : UI) :
    (retrieve_fail res ui).ui.form = ⟨ui.form.order_id, "", "", "", "", ""⟩
    ∧ (create_fail res ui).ui.form = ui.form
    ∧ (update_fail res ui).ui.form = ui.form
    ∧ (delete_fail res ui).ui.form = ui.form
    ∧ (search_fail res ui).ui.form = ui.form := by
  cases res with
  | mk body =>
    cases body <;>
      simp [retrieve_fail, create_fail, update_fail, delete_fail, search_fail,
        flash_response_message, flash_message, flash_append, flash_empty, clear_form_data]

/-- C7: the success handler of delete empties customer_id, status, order_date,
discount_amount and tracking_number, keeps order_id, and leaves exactly
`Order has been Deleted!` in the message area. -/
theorem delete_done_clears_and_reports (res : String) (ui : UI) :
    (delete_done res ui).ui.form = ⟨ui.form.order_id, "", "", "", "", ""⟩
    ∧ (delete_done res ui).ui.flash_message = "Order has been Deleted!"
    ∧ (delete_done res ui).completion = Completion.normal := by
  refine ⟨rfl, ?_, rfl⟩
  simp [delete_done, flash_message, flash_append, flash_empty, clear_form_data]

/-- C8: after clear_form_data the inputs customer_id, status, order_date,
discount_amount and tracking_number are empty and order_id is what it was;
nothing else on the page changes; clearing twice is the same as clearing
once. -/
theorem clear_form_data_effect (ui : UI) :
    (clear_form_data ui).form = ⟨ui.form.order_id, "", "", "", "", ""⟩
    ∧ (clear_form_data ui).flash_message = ui.flash_message
    ∧ (clear_form_data ui).search_results = ui.search_results
    ∧ clear_form_data (clear_form_data ui) = clear_form_data ui :=
  ⟨rfl, rfl, rfl, rfl⟩

/-- C9: the clear handler empties order_id, empties the message area and then
applies clear_form_data, so the six inputs and the message area end up empty;
it sends no request and leaves the results container as it was. -/
theorem clear_click_effect (ui : UI) :
    (clear_click ui).1 =
      clear_form_data (flash_empty { ui with form := { ui.form with order_id := "" } })
    ∧ (clear_click ui).1.form = ⟨"", "", "", "", "", ""⟩
    ∧ (clear_click ui).1.flash_message = ""
    ∧ (clear_click ui).2 = []
    ∧ (clear_click ui).1.search_results = ui.search_results :=
  ⟨rfl, rfl, rfl, rfl, rfl⟩

/-- C10, as stated, fails: with order_id `O1` in the form the clear handler
leaves order_id empty, not `O1`. -/
theorem clear_click_drops_order_id :
    (clear_click ⟨⟨"O1", "C1", "NEW", "2024-01-05", "0", "T1"⟩, "", ""⟩).1.form.order_id
      ≠ (⟨⟨"O1", "C1", "NEW", "2024-01-05", "0", "T1"⟩, "", ""⟩ : UI).form.order_id := by
  decide

/-- C10, amended: the clear handler always leaves order_id empty, so it keeps
the value only when the input was already empty; the value is kept by
clear_form_data, and so by the success handler of delete and the failure
handler of retrieve. -/
theorem clear_click_empties_order_id (ui : UI) (body : String) (res : FailResponse) :
    (clear_click ui).1.form.order_id = ""
    ∧ ((clear_click ui).1.form.order_id = ui.form.order_id ↔ ui.form.order_id = "")
    ∧ (clear_form_data ui).form.order_id = ui.form.order_id
    ∧ (delete_done body ui).ui.form.order_id = ui.form.order_id
    ∧ (retrieve_fail res ui).ui.form.order_id = ui.form.order_id := by
  refine ⟨rfl, ?_, rfl, rfl, ?_⟩
  · show "" = ui.form.order_id ↔ ui.form.order_id = ""
    exact eq_comm
  · cases res with
    | mk b =>
      cases b <;>
        simp [retrieve_fail, flash_response_message, flash_message, flash_append, flash_empty,
          clear_form_data]

/-- C6: a successful search replaces the content of the results container by
the table of the specification: the six headers and one row per record, in
the order received, row `i` with id `row_i` and the cells order_id, customer_id,
order_date, status, tracking_number, discount_amount; for no records the table
has no rows and the form is unchanged; otherwise the form is what
update_form_data makes of the first record. -/
theorem search_done_renders (parse : String → Option Int) (res : List Order) (r : Order) (rs : List Order)
    (ui : UI) (i : Nat) :
    (search_done parse res ui).ui.search_results = rendered_table res
    ∧ (rendered_rows res).length = res.length
    ∧ (rendered_rows res)[i]? =
        res[i]?.map (fun o => html_row ("row_" ++ toString i) (record_cells o))
    ∧ rendered_rows [] = []
    ∧ (search_done parse [] ui).ui.form = ui.form
    ∧ (search_done parse (r :: rs) ui).ui.form = (update_form_data parse r ui).ui.form
    ∧ (search_done parse (r :: rs) ui).ui.form.order_id = r.order_id
    ∧ (search_done parse (r :: rs) ui).ui.form.customer_id = r.customer_id
    ∧ (search_done parse (r :: rs) ui).ui.form.status = r.status
    ∧ (∀ d, formatted_date parse r.order_date = some d →
        (search_done parse (r :: rs) ui).ui.form =
          ⟨r.order_id, r.customer_id, r.status, d, r.discount_amount, r.tracking_number⟩) := by
  have hres : (search_done parse res ui).ui.search_results = rendered_table res := by
    have h := search_table_eq res
    unfold search_done
    simp only []
    split
    · rw [then_flash_results, update_form_data_results]
      apply String.ext
      simp [String.data_append, ← h]
    · apply String.ext
      simp [flash_message, flash_append, flash_empty, String.data_append, ← h]
  have hform : (search_done parse (r :: rs) ui).ui.form = (update_form_data parse r ui).ui.form := by
    unfold search_done
    simp only [search_loop_first, List.head?]
    rw [then_flash_form]
    exact update_form_data_form parse r ui _ rfl
  refine ⟨hres, by simp [rendered_rows], ?_, rfl, rfl, hform, ?_, ?_, ?_, ?_⟩
  · simp only [rendered_rows, List.getElem?_map, List.getElem?_enum]
    cases res[i]? <;> rfl
  · rw [hform]; unfold update_form_data; split <;> rfl
  · rw [hform]; unfold update_form_data; split <;> rfl
  · rw [hform]; unfold update_form_data; split <;> rfl
  · intro d hd
    rw [hform, update_form_data_valid parse r ui d hd]

/-- Witness of C6 on two records: the first is the one written into the
form. -/
theorem search_done_renders_two :
    (search_done (isoTimeValue (fun _ => 0))
        [⟨"O1", "C1", "NEW", "2024-01-05", "0", "T1"⟩,
         ⟨"O2", "C2", "SHIPPED", "2024-02-01", "5", "T2"⟩]
        ⟨⟨"", "", "", "", "", ""⟩, "", "old"⟩).ui.form
      = ⟨"O1", "C1", "NEW", "2024-01-05", "0", "T1"⟩ :=
  (search_done_renders (isoTimeValue (fun _ => 0))
    [⟨"O1", "C1", "NEW", "2024-01-05", "0", "T1"⟩,
     ⟨"O2", "C2", "SHIPPED", "2024-02-01", "5", "T2"⟩]
    ⟨"O1", "C1", "NEW", "2024-01-05", "0", "T1"⟩
    [⟨"O2", "C2", "SHIPPED", "2024-02-01", "5", "T2"⟩]
    ⟨⟨"", "", "", "", "", ""⟩, "", "old"⟩ 0).2.2.2.2.2.2.2.2.2 "2024-01-05" (by decide)

/-! ## Claims about dates and messages -/

/-- C2, as stated, fails: a record dated `2024-01-05T23:30:00-05:00` is shown
as `2024-01-06`, which is not the date part of the incoming string; and in a
browser nine hours east of UTC a record dated `2024-01-05T00:00:00` is shown
as `2024-01-04`. -/
theorem update_form_data_shifts_date :
    (update_form_data (isoTimeValue (fun _ => 0))
        ⟨"O1", "C1", "NEW", "2024-01-05T23:30:00-05:00", "0", "T1"⟩
        ⟨⟨"", "", "", "", "", ""⟩, "", ""⟩).ui.form.order_date = "2024-01-06"
    ∧ (update_form_data (isoTimeValue (fun _ => 0))
        ⟨"O1", "C1", "NEW", "2024-01-05T23:30:00-05:00", "0", "T1"⟩
        ⟨⟨"", "", "", "", "", ""⟩, "", ""⟩).ui.form.order_date ≠ "2024-01-05"
    ∧ (update_form_data (isoTimeValue (fun _ => 32400000))
        ⟨"O1", "C1", "NEW", "2024-01-05T00:00:00", "0", "T1"⟩
        ⟨⟨"", "", "", "", "", ""⟩, "", ""⟩).ui.form.order_date = "2024-01-04" := by
  decide

/-- C2, amended: take a record whose order_date is a calendar date
`YYYY-MM-DD` (year 0000-9999, a day that exists in its month), alone or
followed by a time `THH:mm`, `THH:mm:ss` or `THH:mm:ss.sss` (hour 00-23,
minute and second 00-59) and an offset `Z` or `+HH:mm` / `-HH:mm` (00-23,
00-59), in a browser that reads this string as the standard prescribes.
Then update_form_data sets order_id, customer_id, status, discount_amount and
tracking_number to the values of the record and ends normally; for a date
alone and for offset `Z` it sets order_date to the date part of the incoming
string; for any offset it sets order_date to the UTC calendar date of the
instant the string denotes. -/
theorem update_form_data_writes_utc_date (tza : Int → Int) (parse : String → Option Int)
    (res : Order) (ui : UI) (y m d : Nat) (c : ClockText) (o : OffsetText)
    (hy : y ≤ 9999) (hm1 : 1 ≤ m) (hm2 : m ≤ 12) (hd1 : 1 ≤ d)
    (hd2 : (d : Int) ≤ daysInMonth y m) (hc : c.inDay) (ho : o.inRange)
    (hread : ReadsAsStandard tza parse res.order_date) :
    (res.order_date = String.mk (date_text y m d)
        ∨ res.order_date = String.mk (date_time_text y m d c OffsetText.utc) →
      update_form_data parse res ui =
        ⟨{ ui with form := ⟨res.order_id, res.customer_id, res.status,
            String.mk (date_text y m d), res.discount_amount, res.tracking_number⟩ },
          Completion.normal⟩)
    ∧ (res.order_date = String.mk (date_time_text y m d c o) →
      update_form_data parse res ui =
        ⟨{ ui with form := ⟨res.order_id, res.customer_id, res.status,
            utc_date (instant y m d c o), res.discount_amount, res.tracking_number⟩ },
          Completion.normal⟩) := by
  constructor
  · intro h
    apply update_form_data_valid
    rcases h with h | h
    · rw [h] at hread ⊢
      exact formatted_date_date_text tza parse y m d hy hm1 hm2 hd1 hd2 hread
    · rw [h] at hread ⊢
      rw [formatted_date_date_time_text tza parse y m d c OffsetText.utc hy hm1 hm2 hd1 hd2 hc
        trivial hread, utc_date_instant_utc y m d c hy hm1 hm2 hd1 hd2 hc]
  · intro h
    apply update_form_data_valid
    rw [h] at hread ⊢
    exact formatted_date_date_time_text tza parse y m d c o hy hm1 hm2 hd1 hd2 hc ho hread

/-- Witness of C2 amended, on the record of scenario 1:
`2024-01-05T00:00:00Z` is shown as `2024-01-05`. -/
theorem update_form_data_scenario :
    update_form_data (isoTimeValue (fun _ => 0))
        ⟨"O1", "C1", "NEW", "2024-01-05T00:00:00Z", "0", ""⟩
        ⟨⟨"", "C1", "NEW", "2024-01-05", "0", ""⟩, "", ""⟩
      = ⟨⟨⟨"O1", "C1", "NEW", "2024-01-05", "0", ""⟩, "", ""⟩, Completion.normal⟩ :=
  (update_form_data_writes_utc_date (fun _ => 0) (isoTimeValue (fun _ => 0))
    ⟨"O1", "C1", "NEW", "2024-01-05T00:00:00Z", "0", ""⟩
    ⟨⟨"", "C1", "NEW", "2024-01-05", "0", ""⟩, "", ""⟩
    2024 1 5 (ClockText.hms 0 0 0) OffsetText.utc (by decide) (by decide) (by decide)
    (by decide) (by decide) ⟨by decide, by decide, by decide⟩ trivial
    (fun _ h => h)).1 (Or.inr (by decide))

/-- C5, as stated, fails: a successful create whose record carries the date
`2024-13-01` leaves the message area empty, since toISOString throws before
flash_message is reached. -/
theorem create_done_without_message :
    (create_done (isoTimeValue (fun _ => 0)) ⟨"O1", "C1", "NEW", "2024-13-01", "0", ""⟩
        (create_click ⟨⟨"", "C1", "NEW", "2024-13-01", "0", ""⟩, "old", ""⟩).1).ui.flash_message
      ≠ "Success"
    ∧ (create_done (isoTimeValue (fun _ => 0)) ⟨"O1", "C1", "NEW", "2024-13-01", "0", ""⟩
        (create_click ⟨⟨"", "C1", "NEW", "2024-13-01", "0", ""⟩, "old", ""⟩).1)
      = ⟨⟨⟨"O1", "C1", "NEW", "2024-13-01", "0", ""⟩, "", ""⟩, Completion.rangeError⟩ := by
  decide

/-- C5, amended: each of the six click handlers leaves the message area empty
when it is done; whatever the area held before, a completion handler leaves
exactly one message in it: `Success` after a successful create, update,
retrieve or search whose record (the first one, for a search) has an
order_date that the browser reads as a valid date, and after a search with no
records, and these handlers end normally; `Order has been Deleted!` after a
successful delete; the message of the body after a failed create, update,
retrieve or search with a JSON body; and `Server error!` after any failed
delete. -/
theorem message_area_after_handlers (parse : String → Option Int) (ui : UI) (res : Order)
    (rs : List Order) (t : Int) (body : ErrorBody) (failure : FailResponse) (deleted : String)
    (hdate : parse res.order_date = some t) :
    ((create_click ui).1.flash_message = "" ∧ (update_click ui).1.flash_message = ""
      ∧ (retrieve_click ui).1.flash_message = "" ∧ (delete_click ui).1.flash_message = ""
      ∧ (search_click ui).1.flash_message = "" ∧ (clear_click ui).1.flash_message = "")
    ∧ ((create_done parse res ui).ui.flash_message = "Success"
      ∧ (update_done parse res ui).ui.flash_message = "Success"
      ∧ (retrieve_done parse res ui).ui.flash_message = "Success"
      ∧ (search_done parse (res :: rs) ui).ui.flash_message = "Success"
      ∧ (search_done parse [] ui).ui.flash_message = "Success"
      ∧ (delete_done deleted ui).ui.flash_message = "Order has been Deleted!")
    ∧ ((create_done parse res ui).completion = Completion.normal
      ∧ (update_done parse res ui).completion = Completion.normal
      ∧ (retrieve_done parse res ui).completion = Completion.normal
      ∧ (search_done parse (res :: rs) ui).completion = Completion.normal
      ∧ (search_done parse [] ui).completion = Completion.normal)
    ∧ ((create_fail ⟨some body⟩ ui).ui.flash_message = body.message
      ∧ (update_fail ⟨some body⟩ ui).ui.flash_message = body.message
      ∧ (retrieve_fail ⟨some body⟩ ui).ui.flash_message = body.message
      ∧ (search_fail ⟨some body⟩ ui).ui.flash_message = body.message
      ∧ (delete_fail failure ui).ui.flash_message = "Server error!") := by
  have hf := formatted_date_of_value parse res.order_date t hdate
  have hu := fun u => update_form_data_valid parse res u (utc_date t) hf
  have e : ∀ s : String, "" ++ s = s := fun s => by apply String.ext; simp [String.data_append]
  refine ⟨⟨rfl, rfl, rfl, rfl, rfl, rfl⟩, ⟨?_, ?_, ?_, ?_, ?_, ?_⟩, ⟨?_, ?_, ?_, ?_, ?_⟩,
    ⟨?_, ?_, ?_, ?_, ?_⟩⟩
  all_goals
    simp [create_done, update_done, retrieve_done, search_done, delete_done, create_fail,
      update_fail, retrieve_fail, search_fail, delete_fail, flash_response_message, then_flash,
      flash_message, flash_append, flash_empty, hu, e, search_loop_first]

/-- Witness of C5 amended, on scenario 1: whatever the area held, it reads
`Success` after the create completes. -/
theorem message_area_scenario :
    (create_done (isoTimeValue (fun _ => 0))
        ⟨"O1", "C1", "NEW", "2024-01-05T00:00:00Z", "0", ""⟩
        ⟨⟨"", "C1", "NEW", "2024-01-05", "0", ""⟩, "Order not found", ""⟩).ui.flash_message
      = "Success" :=
  (message_area_after_handlers (isoTimeValue (fun _ => 0))
    ⟨⟨"", "C1", "NEW", "2024-01-05", "0", ""⟩, "Order not found", ""⟩
    ⟨"O1", "C1", "NEW", "2024-01-05T00:00:00Z", "0", ""⟩ [] 1704412800000 ⟨"Order not found"⟩
    ⟨none⟩ "" (by decide)).2.1.1

end Orders
